import Mathlib

/-!
# Verification of the TruckScenes Foxglove streaming relay

A shallow embedding in Lean 4 of the repository's streaming relay
(`src/truckscenes/foxglove_streamer.py`) and of its CLI entry point
(`src/truckscenes/__main__.py`), together with theorems settling the
specification's claims about them.

Modelling conventions:

* Python `int` becomes `Int`; Python `float` arithmetic appearing in the
  colour ramp and the geometric transforms is modelled exactly over `ℚ`.
* Python floor division `//` and modulo `%` with a positive divisor agree
  with `Int`'s `/` and `%` (Euclidean division), which is what the file
  uses.
* Fallible operations (dataset lookups by token, file reads, point-cloud
  decoding) are modelled as `Except String` valued functions collected in
  an environment record `Env`; a Python exception is an `Except.error`.
* One processed frame produces a list of `Event`s: messages sent over a
  channel, or a line printed by an `except` handler.
* The dataset facade (`TruckScenes.get`, `get_sample_data_path`), the
  point-cloud decoders and the quaternion library are external
  collaborators of this repository; they enter the model as the abstract
  functions of `Env` and as exact quaternion arithmetic.
-/

/-! ## Timestamps (`FoxgloveStreamer._ts`) -/

/-- The sec/nsec pair of a Foxglove timestamp object. -/
structure TsPair where
  sec : Int
  nsec : Int
deriving DecidableEq

/-- Embedding of `FoxgloveStreamer._ts`: convert a microsecond timestamp to
the Foxglove `{sec, nsec}` format.  Python `//` and `%` with the positive
divisor `1000000` are `Int`'s Euclidean `/` and `%`. -/
def _ts (timestamp_us : Int) : TsPair :=
  { sec := timestamp_us / 1000000, nsec := timestamp_us % 1000000 * 1000 }

/-! ## Base64 (`base64.b64encode`) -/

/-- The standard base64 alphabet used by Python's `base64.b64encode`. -/
def b64Alphabet : List Char :=
  String.toList "ABCDEFGHIJKLMNOPQRSTUVWXYZabcdefghijklmnopqrstuvwxyz0123456789+/"

/-- The base64 digit for a 6-bit value. -/
def b64Char (n : Nat) : Char := b64Alphabet.getD n 'A'

/-- RFC 4648 base64 of a byte list (bytes as naturals below 256), with
padding, as produced by Python's `base64.b64encode`. -/
def base64Encode : List Nat → List Char
  | [] => []
  | [a] => [b64Char (a / 4), b64Char (a % 4 * 16), '=', '=']
  | [a, b] => [b64Char (a / 4), b64Char (a % 4 * 16 + b / 16), b64Char (b % 16 * 4), '=']
  | a :: b :: c :: rest =>
    b64Char (a / 4) :: b64Char (a % 4 * 16 + b / 16) ::
      b64Char (b % 16 * 4 + c / 64) :: b64Char (c % 64) :: base64Encode rest

/-! ## The radar colour ramp (`FoxgloveStreamer._send_pointcloud`, radar branch) -/

/-- An RGBA colour with exact components. -/
structure Color where
  r : ℚ
  g : ℚ
  b : ℚ
  a : ℚ
deriving DecidableEq

/-- `rcs_norm = max(0.0, min(1.0, (rcs + 20) / 50))` from the radar branch
of `_send_pointcloud`. -/
def rcs_norm (rcs : ℚ) : ℚ := max 0 (min 1 ((rcs + 20) / 50))

/-- Red component of the blue-to-yellow-to-red ramp. -/
def radarColorR (n : ℚ) : ℚ := if n < 1/2 then n * 2 else 1

/-- Green component of the blue-to-yellow-to-red ramp. -/
def radarColorG (n : ℚ) : ℚ := if n < 1/2 then n * 2 else 1 - (n - 1/2) * 2

/-- Blue component of the blue-to-yellow-to-red ramp. -/
def radarColorB (n : ℚ) : ℚ := if n < 1/2 then 1 - n * 2 else 0

/-- The colour given to a radar point of the given RCS value (alpha 1.0). -/
def radarColor (rcs : ℚ) : Color :=
  { r := radarColorR (rcs_norm rcs)
    g := radarColorG (rcs_norm rcs)
    b := radarColorB (rcs_norm rcs)
    a := 1 }

/-! ## Vectors and quaternions

`numpy` 3-vectors and `pyquaternion.Quaternion` are external libraries;
they are modelled as exact arithmetic over `ℚ`.  `Quaternion(lst)` takes
the components in `[w, x, y, z]` order. -/

/-- A 3-vector with exact components. -/
structure Vec3 where
  x : ℚ
  y : ℚ
  z : ℚ
deriving DecidableEq

instance : Sub Vec3 := ⟨fun a b => ⟨a.x - b.x, a.y - b.y, a.z - b.z⟩⟩

/-- A quaternion `w + x i + y j + z k` with exact components. -/
structure Quat where
  w : ℚ
  x : ℚ
  y : ℚ
  z : ℚ
deriving DecidableEq

/-- Hamilton product, as computed by `pyquaternion.Quaternion.__mul__`. -/
def Quat.mul (p q : Quat) : Quat :=
  { w := p.w * q.w - p.x * q.x - p.y * q.y - p.z * q.z
    x := p.w * q.x + p.x * q.w + p.y * q.z - p.z * q.y
    y := p.w * q.y - p.x * q.z + p.y * q.w + p.z * q.x
    z := p.w * q.z + p.x * q.y - p.y * q.x + p.z * q.w }

instance : Mul Quat := ⟨Quat.mul⟩

/-- Quaternion conjugate. -/
def Quat.conjugate (q : Quat) : Quat := ⟨q.w, -q.x, -q.y, -q.z⟩

/-- Squared norm. -/
def Quat.normSq (q : Quat) : ℚ := q.w * q.w + q.x * q.x + q.y * q.y + q.z * q.z

/-- `pyquaternion.Quaternion.inverse`: the conjugate divided by the squared
norm (on `ℚ`, division by a zero norm yields the zero quaternion where
Python would raise; dataset rotations are unit quaternions). -/
def Quat.inverse (q : Quat) : Quat :=
  ⟨q.w / q.normSq, -q.x / q.normSq, -q.y / q.normSq, -q.z / q.normSq⟩

/-- The pure quaternion of a vector. -/
def pureQuat (v : Vec3) : Quat := ⟨0, v.x, v.y, v.z⟩

/-- The vector part of a quaternion. -/
def Quat.vec (q : Quat) : Vec3 := ⟨q.x, q.y, q.z⟩

/-- `pyquaternion.Quaternion.rotate` for a unit quaternion: conjugation
`q v q*` of the pure quaternion of `v` (the library first normalises `q`,
which is the identity on unit quaternions). -/
def Quat.rotate (q : Quat) (v : Vec3) : Vec3 :=
  ((q * pureQuat v) * q.conjugate).vec

/-! ## Dataset records

The relational tables of the dataset, reduced to the fields the streamer
reads.  Tokens are strings; a lookup that would raise `KeyError` in Python
is an `Except.error`. -/

/-- A `sample` record: synchronized timestamp, link to the next sample,
per-sensor-channel `sample_data` tokens, and annotation tokens. -/
structure Sample where
  timestamp : Int
  next : String
  data : List (String × String)
  anns : List String
deriving DecidableEq

/-- A `scene` record: only the head of its sample chain is read. -/
structure Scene where
  first_sample_token : String
deriving DecidableEq

/-- A `sample_data` record: only the ego-pose token is read. -/
structure SampleDataRec where
  ego_pose_token : String
deriving DecidableEq

/-- An `ego_pose` record: global translation and rotation (rotation stored
`[w, x, y, z]`). -/
structure EgoPose where
  translation : Vec3
  rotation : Quat
deriving DecidableEq

/-- A `sample_annotation` record: box translation, rotation, size
`[width, length, height]` (stored in `size` as `x, y, z`), and its
instance token. -/
structure AnnRec where
  translation : Vec3
  rotation : Quat
  size : Vec3
  instance_token : String
deriving DecidableEq

/-- An `instance` record: only the category token is read. -/
structure InstanceRec where
  category_token : String
deriving DecidableEq

/-- A `category` record: only the name is read. -/
structure CategoryRec where
  name : String
deriving DecidableEq

/-- One decoded point-cloud point.  The lidar decoder yields `x, y, z`
rows (plus unused ones); the radar decoder additionally yields the RCS
value from the fixed channel index 6. -/
structure PcPoint where
  x : ℚ
  y : ℚ
  z : ℚ
  rcs : ℚ
deriving DecidableEq

/-! ## Messages and events -/

/-- A sphere of a `foxglove.SceneUpdate` entity. -/
structure Sphere where
  position : Vec3
  size : ℚ
  color : Color
deriving DecidableEq

/-- A cube of a `foxglove.SceneUpdate` entity. -/
structure Cube where
  position : Vec3
  orientation : Quat
  size : Vec3
  color : Color
deriving DecidableEq

/-- A text label of a `foxglove.SceneUpdate` entity. -/
structure TextLabel where
  position : Vec3
  text : String
deriving DecidableEq

/-- A `foxglove.SceneUpdate` entity as built by the streamer (fields the
streamer varies; the remaining fields are constants). -/
structure SceneEntity where
  timestamp : TsPair
  frame_id : String
  id : String
  cubes : List Cube
  spheres : List Sphere
  texts : List TextLabel
deriving DecidableEq

/-- A `foxglove.CompressedImage` message. -/
structure CamMsg where
  timestamp : TsPair
  frame_id : String
  format : String
  data : String
deriving DecidableEq

/-- The payload of one sent message. -/
inductive Payload where
  /-- A compressed camera image. -/
  | cam (m : CamMsg)
  /-- The constant `foxglove.CameraCalibration` message (only its timestamp
  varies). -/
  | camInfo (timestamp : TsPair)
  /-- The constant identity `foxglove.FrameTransforms` message (only its
  timestamp varies). -/
  | tf (timestamp : TsPair)
  /-- A `foxglove.SceneUpdate` with a single entity. -/
  | scene (e : SceneEntity)
deriving DecidableEq

/-- One observable step of the relay: a message sent on a channel (with
its log time `timestamp * 1000`), or a line printed by an `except`
handler. -/
inductive Event where
  | sent (channel : String) (logTime : Int) (payload : Payload)
  | logged (msg : String)
deriving DecidableEq

/-! ## The environment

The dataset facade, the filesystem and the point-cloud decoders, as the
abstract boundary the streamer calls into.  `channels` is the key set of
`self.channels` after `_register_channels`. -/

/-- External collaborators of the streamer. -/
structure Env where
  channels : List String
  getSamplePath : String → Except String String
  readFile : String → Except String (List Nat)
  lidarFromFile : String → Except String (List PcPoint)
  radarFromFile : String → Except String (List PcPoint)
  getSampleData : String → Except String SampleDataRec
  getEgoPose : String → Except String EgoPose
  getAnn : String → Except String AnnRec
  getInstance : String → Except String InstanceRec
  getCategory : String → Except String CategoryRec

/-! ## Substring tests (Python's `in` on strings) -/

/-- Whether the first list is a prefix of the second. -/
def isPrefixOfL : List Char → List Char → Bool
  | [], _ => true
  | _ :: _, [] => false
  | a :: as, b :: bs => a = b && isPrefixOfL as bs

/-- Whether `sub` occurs inside the second list. -/
def containsSubL (sub : List Char) : List Char → Bool
  | [] => sub.isEmpty
  | c :: rest => isPrefixOfL sub (c :: rest) || containsSubL sub rest

/-- Python's `sub in hay` on strings. -/
def containsSub (hay sub : String) : Bool := containsSubL sub.toList hay.toList

/-- `_register_channels`: one channel per sensor whose name contains
`CAMERA`, `LIDAR` or `RADAR`, with an extra `_info` channel per camera. -/
def registerChannels (sensors : List String) : List String :=
  sensors.flatMap fun ch =>
    if containsSub ch "CAMERA" then [ch, ch ++ "_info"]
    else if containsSub ch "LIDAR" then [ch]
    else if containsSub ch "RADAR" then [ch]
    else []

/-! ## Category colours -/

/-- The module-level `CATEGORY_COLORS` table (RGBA). -/
def CATEGORY_COLORS : List (String × Color) :=
  [("vehicle.car", ⟨0, 1/2, 1, 7/10⟩),
   ("vehicle.truck", ⟨1, 0, 0, 7/10⟩),
   ("vehicle.bus", ⟨1, 1/2, 0, 7/10⟩),
   ("vehicle.bicycle", ⟨0, 1, 0, 7/10⟩),
   ("vehicle.motorcycle", ⟨1/2, 0, 1, 7/10⟩),
   ("vehicle.trailer", ⟨4/5, 2/5, 0, 7/10⟩),
   ("human.pedestrian.adult", ⟨1, 1, 0, 7/10⟩),
   ("human.pedestrian.child", ⟨1, 4/5, 0, 7/10⟩),
   ("movable_object", ⟨1/2, 1/2, 1/2, 7/10⟩)]

/-- `CATEGORY_COLORS.get(category_name, grey default)`. -/
def categoryColor (name : String) : Color :=
  (CATEGORY_COLORS.lookup name).getD ⟨1/2, 1/2, 1/2, 7/10⟩

/-- `category_name.split('.')[-1]`: the part after the last dot. -/
def splitDotLast (s : String) : String :=
  String.mk (s.toList.foldl (fun acc c => if c = '.' then [] else acc ++ [c]) [])

/-! ## Camera frames (`FoxgloveStreamer._send_camera`) -/

/-- The body of `_send_camera` (inside its `try`): resolve the file path of
the sample data, read the raw bytes, base64 encode them into a
`CompressedImage` with format `jpeg`, and follow with the constant
camera-info message when the `_info` channel is registered. -/
def sendCameraBody (env : Env) (channel sd_token : String) (t : Int) :
    Except String (List Event) :=
  match env.getSamplePath sd_token with
  | Except.error e => Except.error e
  | Except.ok path =>
    match env.readFile path with
    | Except.error e => Except.error e
    | Except.ok bytes =>
      let img := Event.sent channel (t * 1000)
        (Payload.cam ⟨_ts t, "base_link", "jpeg", String.mk (base64Encode bytes)⟩)
      if env.channels.contains (channel ++ "_info") then
        Except.ok [img, Event.sent (channel ++ "_info") (t * 1000) (Payload.camInfo (_ts t))]
      else
        Except.ok [img]

/-- `_send_camera`: the body wrapped in `try ... except`, which prints
`Camera error {channel}: {e}` on any exception. -/
def sendCameraEv (env : Env) (channel sd_token : String) (t : Int) : List Event :=
  match sendCameraBody env channel sd_token t with
  | Except.ok evs => evs
  | Except.error e => [Event.logged ("Camera error " ++ channel ++ ": " ++ e)]

/-! ## Point clouds (`FoxgloveStreamer._send_pointcloud`) -/

/-- The sphere built for one lidar point: size 0.1, a single green
colour. -/
def lidarSphere (p : PcPoint) : Sphere :=
  { position := ⟨p.x, p.y, p.z⟩, size := 1/10, color := ⟨0, 1, 0, 1⟩ }

/-- The sphere built for one radar point: size 0.3, RCS-ramp colour. -/
def radarSphere (p : PcPoint) : Sphere :=
  { position := ⟨p.x, p.y, p.z⟩, size := 3/10, color := radarColor p.rcs }

/-- The `SceneUpdate` entity wrapping the spheres of one point cloud. -/
def pcEntity (channel : String) (t : Int) (spheres : List Sphere) : SceneEntity :=
  { timestamp := _ts t, frame_id := "base_link", id := channel
    cubes := [], spheres := spheres, texts := [] }

/-- The body of `_send_pointcloud` (inside its `try`): resolve the path,
decode with the lidar or radar decoder, build spheres for the first
`min(N_points, 3000)` (lidar) or `min(N_points, 800)` (radar) points, and
send a single-entity `SceneUpdate` unless the sphere list is empty. -/
def sendPointcloudBody (env : Env) (channel sd_token : String) (t : Int)
    (is_lidar : Bool) : Except String (List Event) :=
  match env.getSamplePath sd_token with
  | Except.error e => Except.error e
  | Except.ok path =>
    match
      (if is_lidar then
        Except.map (fun pts => (pts.take 3000).map lidarSphere) (env.lidarFromFile path)
      else
        Except.map (fun pts => (pts.take 800).map radarSphere) (env.radarFromFile path)) with
    | Except.error e => Except.error e
    | Except.ok spheres =>
      if spheres = [] then Except.ok []
      else Except.ok [Event.sent channel (t * 1000) (Payload.scene (pcEntity channel t spheres))]

/-- `_send_pointcloud`: the body wrapped in `try ... except`, which prints
`Pointcloud error {channel}: {e}` on any exception. -/
def sendPointcloudEv (env : Env) (channel sd_token : String) (t : Int)
    (is_lidar : Bool) : List Event :=
  match sendPointcloudBody env channel sd_token t is_lidar with
  | Except.ok evs => evs
  | Except.error e => [Event.logged ("Pointcloud error " ++ channel ++ ": " ++ e)]

/-! ## Annotations (`FoxgloveStreamer._send_annotations`) -/

/-- Python truthiness on an optional token: `None` and the empty string
are falsy. -/
def truthyOpt : Option String → Option String
  | none => none
  | some t => if t = "" then none else some t

/-- `sample['data'].get('LIDAR_LEFT') or sample['data'].get('LIDAR_TOP_FRONT')`
followed by the `if not lidar_token` guard. -/
def lidarTokenOf (s : Sample) : Option String :=
  match truthyOpt (s.data.lookup "LIDAR_LEFT") with
  | some t => some t
  | none => truthyOpt (s.data.lookup "LIDAR_TOP_FRONT")

/-- The cube built for one annotation: position is the annotation
translation, shifted by the negated ego translation and rotated by the
inverse ego rotation; orientation is the inverse ego rotation times the
annotation rotation; size is reordered `[length, width, height]`. -/
def mkCube (egoT : Vec3) (egoR : Quat) (ann : AnnRec) (catName : String) : Cube :=
  { position := egoR.inverse.rotate (ann.translation - egoT)
    orientation := egoR.inverse * ann.rotation
    size := ⟨ann.size.y, ann.size.x, ann.size.z⟩
    color := categoryColor catName }

/-- The billboard label above one annotation box. -/
def mkText (egoT : Vec3) (egoR : Quat) (ann : AnnRec) (catName : String) : TextLabel :=
  { position :=
      ⟨(egoR.inverse.rotate (ann.translation - egoT)).x,
       (egoR.inverse.rotate (ann.translation - egoT)).y,
       (egoR.inverse.rotate (ann.translation - egoT)).z + ann.size.z / 2 + 1/2⟩
    text := splitDotLast catName }

/-- The `for ann_token in sample['anns']` loop: look up each annotation,
its instance and its category, and accumulate the cube and the label; the
first failing lookup raises out of the loop. -/
def buildCubes (env : Env) (egoT : Vec3) (egoR : Quat) :
    List String → Except String (List Cube × List TextLabel)
  | [] => Except.ok ([], [])
  | tok :: rest =>
    match env.getAnn tok with
    | Except.error e => Except.error e
    | Except.ok ann =>
      match env.getInstance ann.instance_token with
      | Except.error e => Except.error e
      | Except.ok inst =>
        match env.getCategory inst.category_token with
        | Except.error e => Except.error e
        | Except.ok cat =>
          match buildCubes env egoT egoR rest with
          | Except.error e => Except.error e
          | Except.ok (cs, ts) =>
            Except.ok (mkCube egoT egoR ann cat.name :: cs, mkText egoT egoR ann cat.name :: ts)

/-- The `SceneUpdate` entity wrapping the annotation cubes and labels. -/
def annEntity (t : Int) (cubes : List Cube) (texts : List TextLabel) : SceneEntity :=
  { timestamp := _ts t, frame_id := "base_link", id := "annotations"
    cubes := cubes, spheres := [], texts := texts }

/-- The body of `_send_annotations` (inside its `try`): pick a lidar
sample-data token (returning silently when there is none), fetch its ego
pose, build the cubes, and send them unless the cube list is empty. -/
def sendAnnotationsBody (env : Env) (s : Sample) (t : Int) :
    Except String (List Event) :=
  match lidarTokenOf s with
  | none => Except.ok []
  | some ltok =>
    match env.getSampleData ltok with
    | Except.error e => Except.error e
    | Except.ok sd =>
      match env.getEgoPose sd.ego_pose_token with
      | Except.error e => Except.error e
      | Except.ok ego =>
        match buildCubes env ego.translation ego.rotation s.anns with
        | Except.error e => Except.error e
        | Except.ok (cubes, texts) =>
          if cubes = [] then Except.ok []
          else
            Except.ok [Event.sent "/annotations" (t * 1000)
              (Payload.scene (annEntity t cubes texts))]

/-- `_send_annotations`: the body wrapped in `try ... except`, which prints
`Annotations error: {e}` on any exception. -/
def sendAnnotationsEv (env : Env) (s : Sample) (t : Int) : List Event :=
  match sendAnnotationsBody env s t with
  | Except.ok evs => evs
  | Except.error e => [Event.logged ("Annotations error: " ++ e)]

/-! ## One frame (`FoxgloveStreamer._stream_data`, loop body) -/

/-- `_send_transforms`: the constant identity transform, timestamped. -/
def sendTransformsEv (t : Int) : List Event :=
  [Event.sent "/tf" (t * 1000) (Payload.tf (_ts t))]

/-- The body of the `for channel, sd_token in sample['data'].items()` loop:
dispatch one channel to its send routine when it is registered and its
name classifies as camera, lidar or radar. -/
def dispatchChannel (env : Env) (t : Int) (p : String × String) : List Event :=
  if env.channels.contains p.1 then
    if containsSub p.1 "CAMERA" then sendCameraEv env p.1 p.2 t
    else if containsSub p.1 "LIDAR" then sendPointcloudEv env p.1 p.2 t true
    else if containsSub p.1 "RADAR" then sendPointcloudEv env p.1 p.2 t false
    else []
  else []

/-- The sensor loop over `sample['data'].items()`, in iteration order. -/
def sensorLoop (env : Env) (t : Int) : List (String × String) → List Event
  | [] => []
  | p :: rest => dispatchChannel env t p ++ sensorLoop env t rest

/-- One frame of `_stream_data`: transforms, then every sensor of the
sample, then the annotations. -/
def processSample (env : Env) (s : Sample) : List Event :=
  sendTransformsEv s.timestamp
    ++ sensorLoop env s.timestamp s.data
    ++ sendAnnotationsEv env s s.timestamp

/-! ## The relay loop (`FoxgloveStreamer._stream_data`)

The `while current_token and self.running` loop, made total with a fuel
parameter: `none` means the run did not terminate within the fuel (or a
`ts.get('sample', ...)` lookup raised, which would abort the whole
stream).  `self.running` is a boolean another task may clear; it is
modelled as the sequence `flag : Nat → Bool` of the values successively
read at the loop heads, `k` counting the reads so far.  Python's `and`
short-circuits: the flag is not read when the token is already empty. -/

/-- The inner sample loop of `_stream_data`: returns the processed frames
(token and events) and the new flag-read count. -/
def innerLoop (env : Env) (flag : Nat → Bool) (get : String → Option Sample) :
    Nat → Nat → String → Option (List (String × List Event) × Nat)
  | 0, k, tok => if tok = "" then some ([], k) else none
  | fuel + 1, k, tok =>
    if tok = "" then some ([], k)
    else if flag k then
      match get tok with
      | none => none
      | some s =>
        match innerLoop env flag get fuel (k + 1) s.next with
        | none => none
        | some (rest, k2) => some ((tok, processSample env s) :: rest, k2)
    else some ([], k + 1)

/-- The outer `for scene in self.ts.scene` loop of `_stream_data`: run the
inner loop from each scene's first sample token, and break out after a
scene when the flag reads false (`if not self.running: break`). -/
def streamScenes (env : Env) (flag : Nat → Bool) (get : String → Option Sample)
    (fuel : Nat) : List Scene → Nat → Option (List (List (String × List Event)))
  | [], _ => some []
  | sc :: rest, k =>
    match innerLoop env flag get fuel k sc.first_sample_token with
    | none => none
    | some (l, k2) =>
      if flag k2 then
        match streamScenes env flag get fuel rest (k2 + 1) with
        | none => none
        | some ls => some (l :: ls)
      else some [l]

/-- The spec's notion of the sample chain of a scene: starting from a
token, the listed tokens are obtained by repeatedly following
`sample['next']`, in order, ending exactly when the next token is
empty. -/
def isChainFrom (get : String → Option Sample) : String → List String → Prop
  | tok, [] => tok = ""
  | tok, t :: rest =>
    tok ≠ "" ∧ t = tok ∧ ∃ s, get tok = some s ∧ isChainFrom get s.next rest

/-! ## The CLI (`__main__.py`) -/

/-- The parsed command-line arguments of `__main__.main`. -/
structure Args where
  foxglove : Bool
  port : Int
  scene : Option Int
  sample : Option String
  dataroot : String
  version : String
deriving DecidableEq

/-- What `main` needs from the world: whether a path exists, the scene
tokens loaded into `ts.scene`, and whether `foxglove_websocket` is
installed. -/
structure CliWorld where
  pathExists : String → Bool
  scenes : List String
  foxgloveInstalled : Bool

/-- How one CLI invocation ends. -/
inductive CliOutcome where
  /-- `sys.exit(code)` after printing `msg`. -/
  | exitError (code : Nat) (msg : String)
  /-- `explorer.render_sample(tok)` is reached. -/
  | renderSample (tok : String)
  /-- `explorer.render_scene(tok)` is reached. -/
  | renderScene (tok : String)
  /-- `FoxgloveStreamer(ts, port).run()` is reached. -/
  | stream (port : Int)
  /-- An uncaught exception (Python exits with a traceback). -/
  | crash (msg : String)
deriving DecidableEq

/-- The scene-range error message of `run_visualization`. -/
def sceneRangeMsg (i : Int) (n : Nat) : String :=
  "Error: Scene index " ++ toString i ++ " out of range (0-" ++ toString ((n : Int) - 1) ++ ")"

/-- The data-root error message of `main`. -/
def dataRootMsg (root : String) : String :=
  "Error: Data directory not found: " ++ root

/-- Python list indexing `l[i]`: nonnegative indices from the front,
negative indices from the back, `IndexError` otherwise. -/
def pyIndex (l : List String) (i : Int) : Option String :=
  if 0 ≤ i then l.get? i.toNat
  else if 0 ≤ (l.length : Int) + i then l.get? ((l.length : Int) + i).toNat
  else none

/-- The `args.scene` branch of `run_visualization`: the range check is
`args.scene < len(ts.scene)` only, then Python indexing is used. -/
def visSceneBranch (scenes : List String) (scene : Option Int) : CliOutcome :=
  match scene with
  | some i =>
    if i < (scenes.length : Int) then
      match pyIndex scenes i with
      | some tok => CliOutcome.renderScene tok
      | none => CliOutcome.crash "IndexError"
    else CliOutcome.exitError 1 (sceneRangeMsg i scenes.length)
  | none =>
    match scenes with
    | [] => CliOutcome.exitError 1 "No scenes available!"
    | tok :: _ => CliOutcome.renderScene tok

/-- `run_visualization`: a truthy `--sample` takes precedence, then the
`--scene` branch, then the first scene by default. -/
def run_visualization (scenes : List String) (sample : Option String)
    (scene : Option Int) : CliOutcome :=
  match truthyOpt sample with
  | some tok => CliOutcome.renderSample tok
  | none => visSceneBranch scenes scene

/-- `run_foxglove`: exits when the streaming dependency is missing,
otherwise starts the streamer; `--scene` and `--sample` are not read. -/
def run_foxglove (installed : Bool) (port : Int) : CliOutcome :=
  if installed then CliOutcome.stream port
  else CliOutcome.exitError 1 "Error: foxglove-websocket not installed."

/-- `__main__.main` after argument parsing: validate the data root, load
the dataset, then dispatch on `--foxglove`. -/
def mainCli (a : Args) (w : CliWorld) : CliOutcome :=
  if w.pathExists a.dataroot then
    if a.foxglove then run_foxglove w.foxgloveInstalled a.port
    else run_visualization w.scenes a.sample a.scene
  else CliOutcome.exitError 1 (dataRootMsg a.dataroot)

/-! ## C3: timestamp conversion -/

/-- C3: for every non-negative microsecond timestamp `t`, `_ts t` is
`{sec := t / 1000000, nsec := t % 1000000 * 1000}`, the nanosecond field
lies in `[0, 10^9)`, and `sec * 10^6 + nsec / 1000` recovers `t`
exactly. -/
theorem ts_conversion_roundtrip (t : Int) (h : 0 ≤ t) :
    _ts t = ⟨t / 1000000, t % 1000000 * 1000⟩ ∧
    0 ≤ (_ts t).nsec ∧ (_ts t).nsec < 1000000000 ∧
    (_ts t).sec * 1000000 + (_ts t).nsec / 1000 = t := by
  refine ⟨rfl, ?_, ?_, ?_⟩ <;> simp only [_ts] <;> omega

/-- Witness for `ts_conversion_roundtrip` at `t = 1234567`. -/
theorem ts_conversion_roundtrip_witness :
    0 ≤ (1234567 : Int) ∧
    (_ts 1234567 = ⟨1234567 / 1000000, 1234567 % 1000000 * 1000⟩ ∧
     0 ≤ (_ts 1234567).nsec ∧ (_ts 1234567).nsec < 1000000000 ∧
     (_ts 1234567).sec * 1000000 + (_ts 1234567).nsec / 1000 = 1234567) :=
  ⟨by norm_num, ts_conversion_roundtrip 1234567 (by norm_num)⟩

/-! ## C4: the radar colour ramp -/

/-- C4 counterexample: the green component of the ramp is not
nondecreasing in RCS.  At RCS 5 the normalised value is exactly 1/2 and
green is 1; at RCS 30 the normalised value is 1 and green is 0. -/
theorem radar_green_not_monotone :
    (5 : ℚ) ≤ 30 ∧ radarColorG (rcs_norm 30) < radarColorG (rcs_norm 5) := by
  constructor
  · norm_num
  · norm_num [rcs_norm, radarColorG, min_def, max_def]

/-- The normalisation `rcs_norm` is monotone. -/
theorem rcs_norm_mono {a b : ℚ} (h : a ≤ b) : rcs_norm a ≤ rcs_norm b := by
  unfold rcs_norm
  have hd : (a + 20) / 50 ≤ (b + 20) / 50 := by
    apply div_le_div_of_nonneg_right ?_ ?_ <;> [linarith; norm_num]
  exact max_le_max le_rfl (min_le_min le_rfl hd)

/-- C4 amended: along the ramp, red is nondecreasing and blue is
nonincreasing in RCS, while green is nondecreasing only up to the ramp
midpoint (`rcs_norm ≤ 1/2`, i.e. RCS ≤ 5) and nonincreasing beyond it. -/
theorem radar_ramp_monotone (rcs1 rcs2 : ℚ) (h : rcs1 ≤ rcs2) :
    radarColorR (rcs_norm rcs1) ≤ radarColorR (rcs_norm rcs2) ∧
    radarColorB (rcs_norm rcs2) ≤ radarColorB (rcs_norm rcs1) ∧
    (rcs_norm rcs2 ≤ 1/2 →
      radarColorG (rcs_norm rcs1) ≤ radarColorG (rcs_norm rcs2)) ∧
    (1/2 ≤ rcs_norm rcs1 →
      radarColorG (rcs_norm rcs2) ≤ radarColorG (rcs_norm rcs1)) := by
  have hn := rcs_norm_mono h
  refine ⟨?_, ?_, ?_, ?_⟩
  · unfold radarColorR; split_ifs <;> linarith
  · unfold radarColorB; split_ifs <;> linarith
  · intro hg; unfold radarColorG; split_ifs <;> linarith
  · intro hg; unfold radarColorG; split_ifs <;> linarith

/-- Witness for `radar_ramp_monotone` at RCS values 0 and 10. -/
theorem radar_ramp_monotone_witness :
    (0 : ℚ) ≤ 10 ∧
    (radarColorR (rcs_norm 0) ≤ radarColorR (rcs_norm 10) ∧
     radarColorB (rcs_norm 10) ≤ radarColorB (rcs_norm 0) ∧
     (rcs_norm 10 ≤ 1/2 → radarColorG (rcs_norm 0) ≤ radarColorG (rcs_norm 10)) ∧
     (1/2 ≤ rcs_norm 0 → radarColorG (rcs_norm 10) ≤ radarColorG (rcs_norm 0))) :=
  ⟨by norm_num, radar_ramp_monotone 0 10 (by norm_num)⟩

/-! ## C10: annotations need a lidar token -/

/-- C10: when the sample's per-sensor data map has neither a `LIDAR_LEFT`
nor a `LIDAR_TOP_FRONT` entry, `_send_annotations` returns without
sending or printing anything, whatever the annotation list. -/
theorem anns_skipped_without_lidar (env : Env) (s : Sample) (t : Int)
    (h1 : s.data.lookup "LIDAR_LEFT" = none)
    (h2 : s.data.lookup "LIDAR_TOP_FRONT" = none) :
    sendAnnotationsEv env s t = [] := by
  simp only [sendAnnotationsEv, sendAnnotationsBody, lidarTokenOf, h1, h2, truthyOpt]

/-- A fixture environment in which every external call fails with the
exception text `boom`, and no channel is registered. -/
def envErr : Env :=
  { channels := []
    getSamplePath := fun _ => Except.error "boom"
    readFile := fun _ => Except.error "boom"
    lidarFromFile := fun _ => Except.error "boom"
    radarFromFile := fun _ => Except.error "boom"
    getSampleData := fun _ => Except.error "boom"
    getEgoPose := fun _ => Except.error "boom"
    getAnn := fun _ => Except.error "boom"
    getInstance := fun _ => Except.error "boom"
    getCategory := fun _ => Except.error "boom" }

/-- A fixture sample whose data map holds no lidar entry but which does
carry an annotation. -/
def sampleNoLidar : Sample :=
  { timestamp := 3, next := "", data := [("CAMERA_LEFT", "c")], anns := ["a1"] }

/-- Witness for `anns_skipped_without_lidar`. -/
theorem anns_skipped_without_lidar_witness :
    sendAnnotationsEv envErr sampleNoLidar 3 = [] :=
  anns_skipped_without_lidar envErr sampleNoLidar 3 rfl rfl

/-! ## C6: camera JPEG passthrough -/

/-- C6: whenever the path lookup and the file read succeed, the
`CompressedImage` message sent on the camera channel carries format
`jpeg` and, as its `data` field, exactly the base64 encoding of the raw
file bytes; the only other message is the constant camera-info one. -/
theorem camera_jpeg_passthrough (env : Env) (channel sd_token path : String)
    (bytes : List Nat) (t : Int)
    (h1 : env.getSamplePath sd_token = Except.ok path)
    (h2 : env.readFile path = Except.ok bytes) :
    sendCameraEv env channel sd_token t =
      Event.sent channel (t * 1000)
        (Payload.cam ⟨_ts t, "base_link", "jpeg", String.mk (base64Encode bytes)⟩)
      :: (if env.channels.contains (channel ++ "_info") then
            [Event.sent (channel ++ "_info") (t * 1000) (Payload.camInfo (_ts t))]
          else []) := by
  by_cases hc : (channel ++ "_info") ∈ env.channels <;>
    simp [sendCameraEv, sendCameraBody, h1, h2, hc]

/-- A fixture environment for the camera path: token `T` resolves to path
`p`, whose bytes are `Man` (77, 97, 110); the camera channel `CAM` has a
registered `_info` companion. -/
def envCam : Env :=
  { envErr with
    channels := ["CAM", "CAM_info"]
    getSamplePath := fun tok => if tok = "T" then Except.ok "p" else Except.error "KeyError"
    readFile := fun path => if path = "p" then Except.ok [77, 97, 110] else Except.error "boom" }

/-- Witness for `camera_jpeg_passthrough`: the bytes of `Man` are sent as
their base64 encoding. -/
theorem camera_jpeg_passthrough_witness :
    sendCameraEv envCam "CAM" "T" 7 =
      Event.sent "CAM" (7 * 1000)
        (Payload.cam ⟨_ts 7, "base_link", "jpeg", String.mk (base64Encode [77, 97, 110])⟩)
      :: (if envCam.channels.contains ("CAM" ++ "_info") then
            [Event.sent ("CAM" ++ "_info") (7 * 1000) (Payload.camInfo (_ts 7))]
          else []) :=
  camera_jpeg_passthrough envCam "CAM" "T" "p" [77, 97, 110] 7 rfl rfl

/-! ## C9: point-cloud capping -/

/-- C9: whenever the path lookup and the decode succeed, an empty point
cloud sends no message at all, and a non-empty one sends exactly one
`SceneUpdate` whose spheres are the mapped prefix of the decoded points,
capped at 3000 points for lidar and 800 for radar. -/
theorem pointcloud_capped (env : Env) (channel sd_token path : String) (t : Int)
    (h1 : env.getSamplePath sd_token = Except.ok path) :
    (∀ pts : List PcPoint, env.lidarFromFile path = Except.ok pts →
      (pts = [] → sendPointcloudEv env channel sd_token t true = []) ∧
      (pts ≠ [] →
        sendPointcloudEv env channel sd_token t true =
          [Event.sent channel (t * 1000) (Payload.scene (pcEntity channel t
            ((pts.take 3000).map lidarSphere)))] ∧
        ((pts.take 3000).map lidarSphere).length = min pts.length 3000)) ∧
    (∀ pts : List PcPoint, env.radarFromFile path = Except.ok pts →
      (pts = [] → sendPointcloudEv env channel sd_token t false = []) ∧
      (pts ≠ [] →
        sendPointcloudEv env channel sd_token t false =
          [Event.sent channel (t * 1000) (Payload.scene (pcEntity channel t
            ((pts.take 800).map radarSphere)))] ∧
        ((pts.take 800).map radarSphere).length = min pts.length 800)) := by
  constructor
  · intro pts h2
    constructor
    · intro hp
      subst hp
      simp [sendPointcloudEv, sendPointcloudBody, h1, h2, Except.map]
    · intro hp
      obtain ⟨p, rest, rfl⟩ := List.exists_cons_of_ne_nil hp
      refine ⟨?_, by simp [List.length_take, Nat.min_comm]; omega⟩
      simp [sendPointcloudEv, sendPointcloudBody, h1, h2, Except.map]
  · intro pts h2
    constructor
    · intro hp
      subst hp
      simp [sendPointcloudEv, sendPointcloudBody, h1, h2, Except.map]
    · intro hp
      obtain ⟨p, rest, rfl⟩ := List.exists_cons_of_ne_nil hp
      refine ⟨?_, by simp [List.length_take, Nat.min_comm]; omega⟩
      simp [sendPointcloudEv, sendPointcloudBody, h1, h2, Except.map]

/-- A fixture environment for the point-cloud path: token `T` resolves to
path `p`, which decodes to a single lidar point. -/
def envPc : Env :=
  { envErr with
    getSamplePath := fun tok => if tok = "T" then Except.ok "p" else Except.error "KeyError"
    lidarFromFile := fun path =>
      if path = "p" then Except.ok [⟨1, 2, 3, 0⟩] else Except.error "boom" }

/-- Witness for `pointcloud_capped`: one lidar point yields one sphere. -/
theorem pointcloud_capped_witness :
    sendPointcloudEv envPc "LIDAR_LEFT" "T" 7 true =
      [Event.sent "LIDAR_LEFT" (7 * 1000) (Payload.scene (pcEntity "LIDAR_LEFT" 7
        ((([⟨1, 2, 3, 0⟩] : List PcPoint).take 3000).map lidarSphere)))] ∧
    ((([⟨1, 2, 3, 0⟩] : List PcPoint).take 3000).map lidarSphere).length
      = min ([⟨1, 2, 3, 0⟩] : List PcPoint).length 3000 :=
  ((pointcloud_capped envPc "LIDAR_LEFT" "T" "p" 7 rfl).1 [⟨1, 2, 3, 0⟩] rfl).2
    (List.cons_ne_nil _ _)

/-! ## C7: CLI error exits -/

/-- The CLI arguments of the counterexample run: foxglove mode with an
out-of-range scene index. -/
def argsFox : Args :=
  { foxglove := true, port := 8765, scene := some 5, sample := none
    dataroot := "root", version := "v1.1-mini" }

/-- The world of the counterexample run: the data root exists, one scene
is loaded, the streaming dependency is installed. -/
def worldFox : CliWorld :=
  { pathExists := fun _ => true, scenes := ["scene0"], foxgloveInstalled := true }

/-- C7 counterexample: with an existing data root, scene index 5 and only
one loaded scene, the `--foxglove` invocation starts streaming instead of
exiting — `main` never checks the scene index in foxglove mode. -/
theorem cli_out_of_range_still_streams :
    worldFox.pathExists argsFox.dataroot = true ∧
    argsFox.scene = some 5 ∧
    (worldFox.scenes.length : Int) ≤ 5 ∧
    mainCli argsFox worldFox = CliOutcome.stream 8765 := by
  refine ⟨rfl, rfl, by norm_num [worldFox], rfl⟩

/-- C7 amended: a missing data root exits with code 1 and a message in
every mode, before anything is rendered or streamed; and in visualization
mode, with no truthy sample token and a scene index at least the number
of loaded scenes, the process exits with code 1 and a message instead of
rendering.  (Foxglove mode ignores the scene index, a truthy `--sample`
bypasses the check, and negative indices are not rejected.) -/
theorem cli_exit_conditions (a : Args) (w : CliWorld) (i : Int) :
    (w.pathExists a.dataroot = false →
      mainCli a w = CliOutcome.exitError 1 (dataRootMsg a.dataroot)) ∧
    (w.pathExists a.dataroot = true → a.foxglove = false →
      truthyOpt a.sample = none → a.scene = some i →
      (w.scenes.length : Int) ≤ i →
      mainCli a w = CliOutcome.exitError 1 (sceneRangeMsg i w.scenes.length)) := by
  constructor
  · intro hp
    simp [mainCli, hp]
  · intro hp hf hs hi hlen
    have : ¬ i < (w.scenes.length : Int) := by omega
    simp [mainCli, hp, hf, run_visualization, hs, visSceneBranch, hi, this]

/-- Arguments of the data-root witness run: the root is missing. -/
def argsNoRoot : Args :=
  { foxglove := false, port := 8765, scene := none, sample := none
    dataroot := "missing", version := "v1.1-mini" }

/-- A world in which no path exists. -/
def worldNoRoot : CliWorld :=
  { pathExists := fun _ => false, scenes := [], foxgloveInstalled := true }

/-- Arguments of the scene-range witness run: visualization mode with
scene index 5. -/
def argsVis : Args :=
  { foxglove := false, port := 8765, scene := some 5, sample := none
    dataroot := "root", version := "v1.1-mini" }

/-- Witness for `cli_exit_conditions`: both exit paths at concrete
invocations. -/
theorem cli_exit_conditions_witness :
    mainCli argsNoRoot worldNoRoot = CliOutcome.exitError 1 (dataRootMsg "missing") ∧
    mainCli argsVis worldFox = CliOutcome.exitError 1 (sceneRangeMsg 5 1) :=
  ⟨(cli_exit_conditions argsNoRoot worldNoRoot 0).1 rfl,
   (cli_exit_conditions argsVis worldFox 5).2 rfl rfl rfl rfl (by norm_num [worldFox])⟩

/-! ## C5: annotations in the vehicle-relative frame -/

/-- The claim's formula for the published cube position: the inverse ego
rotation applied to the annotation translation minus the ego
translation. -/
def egoFramePosSpec (ego : EgoPose) (ann : AnnRec) : Vec3 :=
  ego.rotation.inverse.rotate (ann.translation - ego.translation)

/-- The claim's formula for the published cube orientation: the inverse
ego rotation quaternion composed with the annotation rotation
quaternion. -/
def egoFrameRotSpec (ego : EgoPose) (ann : AnnRec) : Quat :=
  ego.rotation.inverse * ann.rotation

/-- Each cube built by the annotation loop realises the claim's formulas
for the annotation record its token resolves to. -/
theorem buildCubes_ego_frame (env : Env) (egoT : Vec3) (egoR : Quat) :
    ∀ (toks : List String) (cubes : List Cube) (texts : List TextLabel),
      buildCubes env egoT egoR toks = Except.ok (cubes, texts) →
      List.Forall₂ (fun tok cube => ∃ a : AnnRec,
        env.getAnn tok = Except.ok a ∧
        cube.position = egoR.inverse.rotate (a.translation - egoT) ∧
        cube.orientation = egoR.inverse * a.rotation) toks cubes := by
  intro toks
  induction toks with
  | nil =>
    intro cubes texts h
    simp only [buildCubes, Except.ok.injEq, Prod.mk.injEq] at h
    obtain ⟨h1, -⟩ := h
    subst h1
    exact List.Forall₂.nil
  | cons tok rest ih =>
    intro cubes texts h
    simp only [buildCubes] at h
    cases ha : env.getAnn tok with
    | error e => simp [ha] at h
    | ok ann =>
      simp only [ha] at h
      cases hi : env.getInstance ann.instance_token with
      | error e => simp [hi] at h
      | ok inst =>
        simp only [hi] at h
        cases hc : env.getCategory inst.category_token with
        | error e => simp [hc] at h
        | ok cat =>
          simp only [hc] at h
          cases hb : buildCubes env egoT egoR rest with
          | error e => simp [hb] at h
          | ok p =>
            obtain ⟨cs, ts⟩ := p
            simp only [hb, Except.ok.injEq, Prod.mk.injEq] at h
            obtain ⟨h1, h2⟩ := h
            subst h1
            exact List.Forall₂.cons ⟨ann, ha, rfl, rfl⟩ (ih cs ts hb)

/-- C5: when the sample has a lidar token and the ego-pose and annotation
lookups succeed, every published cube's position is the inverse ego
rotation applied to the annotation translation minus the ego translation,
its orientation is the inverse ego rotation composed with the annotation
rotation (exact quaternion arithmetic), and exactly these cubes are
published on the annotations channel. -/
theorem anns_in_ego_frame (env : Env) (s : Sample) (t : Int) (ltok : String)
    (sd : SampleDataRec) (ego : EgoPose) (cubes : List Cube) (texts : List TextLabel)
    (h1 : lidarTokenOf s = some ltok)
    (h2 : env.getSampleData ltok = Except.ok sd)
    (h3 : env.getEgoPose sd.ego_pose_token = Except.ok ego)
    (h4 : buildCubes env ego.translation ego.rotation s.anns = Except.ok (cubes, texts)) :
    List.Forall₂ (fun tok cube => ∃ a : AnnRec,
      env.getAnn tok = Except.ok a ∧
      cube.position = egoFramePosSpec ego a ∧
      cube.orientation = egoFrameRotSpec ego a) s.anns cubes ∧
    (cubes ≠ [] →
      sendAnnotationsEv env s t =
        [Event.sent "/annotations" (t * 1000)
          (Payload.scene (annEntity t cubes texts))]) := by
  constructor
  · exact buildCubes_ego_frame env ego.translation ego.rotation s.anns cubes texts h4
  · intro hne
    simp only [sendAnnotationsEv, sendAnnotationsBody, h1, h2, h3, h4]
    rw [if_neg hne]

/-- The identity ego pose of the annotation witness. -/
def egoW : EgoPose := { translation := ⟨0, 0, 0⟩, rotation := ⟨1, 0, 0, 0⟩ }

/-- The annotation record of the annotation witness. -/
def annW : AnnRec :=
  { translation := ⟨1, 2, 3⟩, rotation := ⟨1, 0, 0, 0⟩
    size := ⟨2, 4, 1⟩, instance_token := "i1" }

/-- A fixture environment for the annotation path: one annotation `a1` of
category `vehicle.car`, reachable from lidar token `ld`. -/
def envAnnW : Env :=
  { envErr with
    getSampleData := fun tok =>
      if tok = "ld" then Except.ok ⟨"ep"⟩ else Except.error "KeyError"
    getEgoPose := fun tok =>
      if tok = "ep" then Except.ok egoW else Except.error "KeyError"
    getAnn := fun tok =>
      if tok = "a1" then Except.ok annW else Except.error "KeyError"
    getInstance := fun tok =>
      if tok = "i1" then Except.ok ⟨"c1"⟩ else Except.error "KeyError"
    getCategory := fun tok =>
      if tok = "c1" then Except.ok ⟨"vehicle.car"⟩ else Except.error "KeyError" }

/-- The sample of the annotation witness. -/
def sampleAnnW : Sample :=
  { timestamp := 5, next := "", data := [("LIDAR_LEFT", "ld")], anns := ["a1"] }

/-- Witness for `anns_in_ego_frame` at a one-annotation sample. -/
theorem anns_in_ego_frame_witness :
    List.Forall₂ (fun tok cube => ∃ a : AnnRec,
      envAnnW.getAnn tok = Except.ok a ∧
      cube.position = egoFramePosSpec egoW a ∧
      cube.orientation = egoFrameRotSpec egoW a) sampleAnnW.anns
      [mkCube egoW.translation egoW.rotation annW "vehicle.car"] ∧
    sendAnnotationsEv envAnnW sampleAnnW 5 =
      [Event.sent "/annotations" (5 * 1000)
        (Payload.scene (annEntity 5
          [mkCube egoW.translation egoW.rotation annW "vehicle.car"]
          [mkText egoW.translation egoW.rotation annW "vehicle.car"]))] :=
  ⟨(anns_in_ego_frame envAnnW sampleAnnW 5 "ld" ⟨"ep"⟩ egoW _ _ rfl rfl rfl rfl).1,
   (anns_in_ego_frame envAnnW sampleAnnW 5 "ld" ⟨"ep"⟩ egoW _ _ rfl rfl rfl rfl).2
     (List.cons_ne_nil _ _)⟩

/-! ## C2: per-sensor errors are caught -/

/-- The relay walk (the visited tokens and the flag reads) does not
depend on the sensor environment: sensor conversions and sends cannot
abort or redirect the loop, whatever they do. -/
theorem innerLoop_env_irrelevant (env env2 : Env) (flag : Nat → Bool)
    (get : String → Option Sample) :
    ∀ (fuel k : Nat) (tok : String),
      Option.map (fun r => (List.map Prod.fst r.1, r.2))
        (innerLoop env flag get fuel k tok) =
      Option.map (fun r => (List.map Prod.fst r.1, r.2))
        (innerLoop env2 flag get fuel k tok) := by
  intro fuel
  induction fuel with
  | zero => intro k tok; rfl
  | succ fuel ih =>
    intro k tok
    by_cases htok : tok = ""
    · simp [innerLoop, htok]
    · cases hf : flag k with
      | false => simp [innerLoop, htok, hf]
      | true =>
        simp only [innerLoop, htok, hf, if_false, if_true]
        cases hget : get tok with
        | none => rfl
        | some s =>
          have hrec := ih (k + 1) s.next
          cases h1 : innerLoop env flag get fuel (k + 1) s.next with
          | none =>
            cases h2 : innerLoop env2 flag get fuel (k + 1) s.next with
            | none => simp [h1, h2]
            | some p2 => rw [h1, h2] at hrec; exact absurd hrec (by simp)
          | some p1 =>
            cases h2 : innerLoop env2 flag get fuel (k + 1) s.next with
            | none => rw [h1, h2] at hrec; exact absurd hrec (by simp)
            | some p2 =>
              obtain ⟨rest1, k1⟩ := p1
              obtain ⟨rest2, k2⟩ := p2
              rw [h1, h2] at hrec
              simp only [Option.map_some', Option.some.injEq, Prod.mk.injEq] at hrec
              obtain ⟨hl, hk⟩ := hrec
              simp [h1, h2, hl, hk]

/-- C2: per-sensor failures are caught and logged, and do not abort the
relay.  The sensor loop handles each channel of the sample independently
and in order; a send routine whose body raises produces exactly the
printed error line of its `except` handler; and the walk of the relay
loop is the same whatever the sensor environment does. -/
theorem per_sensor_errors_caught (env : Env) (t : Int) :
    (∀ ps : List (String × String),
      sensorLoop env t ps = ps.flatMap (dispatchChannel env t)) ∧
    (∀ c tok e, sendCameraBody env c tok t = Except.error e →
      sendCameraEv env c tok t = [Event.logged ("Camera error " ++ c ++ ": " ++ e)]) ∧
    (∀ c tok b e, sendPointcloudBody env c tok t b = Except.error e →
      sendPointcloudEv env c tok t b =
        [Event.logged ("Pointcloud error " ++ c ++ ": " ++ e)]) ∧
    (∀ (s : Sample) e, sendAnnotationsBody env s t = Except.error e →
      sendAnnotationsEv env s t = [Event.logged ("Annotations error: " ++ e)]) ∧
    (∀ (env2 : Env) (flag : Nat → Bool) (get : String → Option Sample) (fuel k : Nat)
        (tok : String),
      Option.map (fun r => (List.map Prod.fst r.1, r.2))
        (innerLoop env flag get fuel k tok) =
      Option.map (fun r => (List.map Prod.fst r.1, r.2))
        (innerLoop env2 flag get fuel k tok)) := by
  refine ⟨?_, ?_, ?_, ?_, ?_⟩
  · intro ps
    induction ps with
    | nil => simp [sensorLoop]
    | cons p rest ih => simp [sensorLoop, ih]
  · intro c tok e h
    simp [sendCameraEv, h]
  · intro c tok b e h
    simp [sendPointcloudEv, h]
  · intro s e h
    simp [sendAnnotationsEv, h]
  · intro env2 flag get fuel k tok
    exact innerLoop_env_irrelevant env env2 flag get fuel k tok

/-- A fixture sample with a lidar entry whose `sample_data` lookup fails
in `envErr`. -/
def sampleLidarW : Sample :=
  { timestamp := 7, next := "", data := [("LIDAR_LEFT", "ld")], anns := [] }

/-- Witness for `per_sensor_errors_caught`: in the all-failing
environment, each send routine yields exactly its printed error line. -/
theorem per_sensor_errors_caught_witness :
    sendCameraEv envErr "CAM" "tok" 7 =
      [Event.logged ("Camera error " ++ "CAM" ++ ": " ++ "boom")] ∧
    sendPointcloudEv envErr "LIDAR_LEFT" "tok" 7 true =
      [Event.logged ("Pointcloud error " ++ "LIDAR_LEFT" ++ ": " ++ "boom")] ∧
    sendAnnotationsEv envErr sampleLidarW 7 =
      [Event.logged ("Annotations error: " ++ "boom")] :=
  ⟨(per_sensor_errors_caught envErr 7).2.1 "CAM" "tok" "boom" rfl,
   (per_sensor_errors_caught envErr 7).2.2.1 "LIDAR_LEFT" "tok" true "boom" rfl,
   (per_sensor_errors_caught envErr 7).2.2.2.1 sampleLidarW "boom" rfl⟩

/-! ## C1: the relay walks each scene's sample chain

The lemmas below are all about runs with the flag constantly true (no
cancellation), matching the claim's setting. -/

/-- Unfolding of one processing step of the inner loop: a nonempty token,
a true flag and a successful sample lookup process one frame and
continue. -/
theorem innerLoop_succ_cons (env : Env) (flag : Nat → Bool)
    (get : String → Option Sample) (fuel k : Nat) (tok : String)
    (htok : tok ≠ "") (hf : flag k = true) (s : Sample) (hget : get tok = some s) :
    innerLoop env flag get (fuel + 1) k tok =
      match innerLoop env flag get fuel (k + 1) s.next with
      | none => none
      | some (rest, k2) => some ((tok, processSample env s) :: rest, k2) := by
  simp [innerLoop, htok, hf, hget]

/-- A successful run shifts the read count by exactly the number of
processed frames, and does so from any starting count. -/
theorem innerLoop_true_kshift (env : Env) (get : String → Option Sample) :
    ∀ (fuel k : Nat) (tok : String) (l : List (String × List Event)) (k2 : Nat),
      innerLoop env (fun _ => true) get fuel k tok = some (l, k2) →
      k2 = k + l.length ∧
      ∀ k3, innerLoop env (fun _ => true) get fuel k3 tok = some (l, k3 + l.length) := by
  intro fuel
  induction fuel with
  | zero =>
    intro k tok l k2 h
    by_cases htok : tok = "" <;> simp [innerLoop, htok] at h
    obtain ⟨rfl, rfl⟩ := h
    exact ⟨by simp, fun k3 => by simp [innerLoop, htok]⟩
  | succ fuel ih =>
    intro k tok l k2 h
    by_cases htok : tok = ""
    · simp [innerLoop, htok] at h
      obtain ⟨rfl, rfl⟩ := h
      exact ⟨by simp, fun k3 => by simp [innerLoop, htok]⟩
    · simp [innerLoop, htok] at h
      cases hget : get tok with
      | none => simp [hget] at h
      | some s =>
        simp [hget] at h
        cases hrec : innerLoop env (fun _ => true) get fuel (k + 1) s.next with
        | none => simp [hrec] at h
        | some p =>
          obtain ⟨rest, kk⟩ := p
          simp [hrec] at h
          obtain ⟨h1, h2⟩ := h
          obtain ⟨hkk, hshift⟩ := ih (k + 1) s.next rest kk hrec
          subst h1
          constructor
          · simp [← h2, hkk]
            omega
          · intro k3
            have hs := hshift (k3 + 1)
            simp [innerLoop, htok, hget, hs] <;> omega

/-- A successful run stays successful, with the same result, when the
fuel grows by one. -/
theorem innerLoop_true_mono (env : Env) (get : String → Option Sample) :
    ∀ (fuel k : Nat) (tok : String) (l : List (String × List Event)) (k2 : Nat),
      innerLoop env (fun _ => true) get fuel k tok = some (l, k2) →
      innerLoop env (fun _ => true) get (fuel + 1) k tok = some (l, k2) := by
  intro fuel
  induction fuel with
  | zero =>
    intro k tok l k2 h
    by_cases htok : tok = "" <;> simp [innerLoop, htok] at h ⊢
    exact h
  | succ fuel ih =>
    intro k tok l k2 h
    by_cases htok : tok = ""
    · simp [innerLoop, htok] at h ⊢
      exact h
    · simp [innerLoop, htok] at h
      cases hget : get tok with
      | none => simp [hget] at h
      | some s =>
        simp [hget] at h
        cases hrec : innerLoop env (fun _ => true) get fuel (k + 1) s.next with
        | none => simp [hrec] at h
        | some p =>
          obtain ⟨rest, kk⟩ := p
          simp [hrec] at h
          rw [innerLoop_succ_cons env _ get (fuel + 1) k tok htok rfl s hget,
            ih (k + 1) s.next rest kk hrec]
          simp [h.1, h.2]

/-- A successful run stays successful, with the same result, at any
larger fuel. -/
theorem innerLoop_true_le (env : Env) (get : String → Option Sample)
    {fuel fuel2 : Nat} (hle : fuel ≤ fuel2) {k : Nat} {tok : String}
    {l : List (String × List Event)} {k2 : Nat}
    (h : innerLoop env (fun _ => true) get fuel k tok = some (l, k2)) :
    innerLoop env (fun _ => true) get fuel2 k tok = some (l, k2) := by
  induction fuel2, hle using Nat.le_induction with
  | base => exact h
  | succ n hn ih => exact innerLoop_true_mono env get n k tok l k2 ih

/-- Every tail of a successful run is itself a successful run (from the
token heading the tail, at some smaller fuel). -/
theorem innerLoop_true_suffix (env : Env) (get : String → Option Sample) :
    ∀ (fuel k : Nat) (tok : String) (l : List (String × List Event)) (k2 : Nat),
      innerLoop env (fun _ => true) get fuel k tok = some (l, k2) →
      ∀ pre x suf, l = pre ++ x :: suf →
      ∃ fuel2, fuel2 ≤ fuel ∧
        innerLoop env (fun _ => true) get fuel2 0 x.1 =
          some (x :: suf, (x :: suf).length) := by
  intro fuel
  induction fuel with
  | zero =>
    intro k tok l k2 h pre x suf hl
    by_cases htok : tok = "" <;> simp [innerLoop, htok] at h
    obtain ⟨rfl, rfl⟩ := h
    exact absurd hl (by simp)
  | succ fuel ih =>
    intro k tok l k2 h pre x suf hl
    by_cases htok : tok = ""
    · simp [innerLoop, htok] at h
      obtain ⟨rfl, rfl⟩ := h
      exact absurd hl (by simp)
    · simp [innerLoop, htok] at h
      cases hget : get tok with
      | none => simp [hget] at h
      | some s =>
        simp [hget] at h
        cases hrec : innerLoop env (fun _ => true) get fuel (k + 1) s.next with
        | none => simp [hrec] at h
        | some p =>
          obtain ⟨rest, kk⟩ := p
          simp [hrec] at h
          obtain ⟨h1, h2⟩ := h
          rw [← h1] at hl
          cases pre with
          | nil =>
            simp only [List.nil_append, List.cons.injEq] at hl
            obtain ⟨hx, hsuf⟩ := hl
            subst hx
            subst hsuf
            refine ⟨fuel + 1, le_rfl, ?_⟩
            obtain ⟨-, hshift⟩ := innerLoop_true_kshift env get fuel (k + 1) s.next rest kk hrec
            have hs := hshift 1
            simp [innerLoop, htok, hget, hs] <;> omega
          | cons p0 pre2 =>
            simp only [List.cons_append, List.cons.injEq] at hl
            obtain ⟨-, hrest⟩ := hl
            obtain ⟨f2, hf2, hres⟩ := ih (k + 1) s.next rest kk hrec pre2 x suf hrest
            exact ⟨f2, Nat.le_succ_of_le hf2, hres⟩

/-- A successful run never visits the same sample token twice: following
`next` from a repeated token would repeat forever and the run would not
have terminated. -/
theorem innerLoop_true_nodup (env : Env) (get : String → Option Sample) :
    ∀ (fuel k : Nat) (tok : String) (l : List (String × List Event)) (k2 : Nat),
      innerLoop env (fun _ => true) get fuel k tok = some (l, k2) →
      (l.map Prod.fst).Nodup := by
  intro fuel
  induction fuel with
  | zero =>
    intro k tok l k2 h
    by_cases htok : tok = "" <;> simp [innerLoop, htok] at h
    obtain ⟨rfl, rfl⟩ := h
    simp
  | succ fuel ih =>
    intro k tok l k2 h
    by_cases htok : tok = ""
    · simp [innerLoop, htok] at h
      obtain ⟨rfl, rfl⟩ := h
      simp
    · have h0 := h
      simp [innerLoop, htok] at h
      cases hget : get tok with
      | none => simp [hget] at h
      | some s =>
        simp [hget] at h
        cases hrec : innerLoop env (fun _ => true) get fuel (k + 1) s.next with
        | none => simp [hrec] at h
        | some p =>
          obtain ⟨rest, kk⟩ := p
          simp [hrec] at h
          obtain ⟨h1, h2⟩ := h
          subst h1
          rw [List.map_cons]
          refine List.nodup_cons.mpr ⟨?_, ih (k + 1) s.next rest kk hrec⟩
          intro hmem
          obtain ⟨x, hx, hfst⟩ := List.mem_map.mp hmem
          obtain ⟨pre, suf, hsplit⟩ := List.append_of_mem hx
          obtain ⟨f2, hf2, hres⟩ :=
            innerLoop_true_suffix env get fuel (k + 1) s.next rest kk hrec pre x suf hsplit
          have hres2 := innerLoop_true_le env get (le_trans hf2 (Nat.le_succ fuel)) hres
          rw [hfst] at hres2
          obtain ⟨-, hshift⟩ :=
            innerLoop_true_kshift env get (fuel + 1) k tok _ k2 h0
          rw [hshift 0] at hres2
          simp only [Option.some.injEq, Prod.mk.injEq, List.cons.injEq] at hres2
          obtain ⟨⟨-, hr⟩, -⟩ := hres2
          rw [← hr] at hsplit
          have hlen := congrArg List.length hsplit
          simp [List.length_append] at hlen
          omega

/-- A successful run with the flag always true visits exactly the sample
chain of its starting token. -/
theorem innerLoop_true_chain (env : Env) (get : String → Option Sample) :
    ∀ (fuel k : Nat) (tok : String) (l : List (String × List Event)) (k2 : Nat),
      innerLoop env (fun _ => true) get fuel k tok = some (l, k2) →
      isChainFrom get tok (l.map Prod.fst) := by
  intro fuel
  induction fuel with
  | zero =>
    intro k tok l k2 h
    by_cases htok : tok = "" <;> simp [innerLoop, htok] at h
    obtain ⟨rfl, rfl⟩ := h
    simp [isChainFrom, htok]
  | succ fuel ih =>
    intro k tok l k2 h
    by_cases htok : tok = ""
    · simp [innerLoop, htok] at h
      obtain ⟨rfl, rfl⟩ := h
      simp [isChainFrom, htok]
    · simp [innerLoop, htok] at h
      cases hget : get tok with
      | none => simp [hget] at h
      | some s =>
        simp [hget] at h
        cases hrec : innerLoop env (fun _ => true) get fuel (k + 1) s.next with
        | none => simp [hrec] at h
        | some p =>
          obtain ⟨rest, kk⟩ := p
          simp [hrec] at h
          obtain ⟨h1, -⟩ := h
          subst h1
          rw [List.map_cons]
          exact ⟨htok, rfl, s, hget, ih (k + 1) s.next rest kk hrec⟩

/-- With the flag always true, the outer loop runs the inner loop on the
scenes in table order, and each scene's frames are its chain, visited
once each. -/
theorem streamScenes_true_chain (env : Env) (get : String → Option Sample)
    (fuel : Nat) :
    ∀ (scenes : List Scene) (k : Nat) (lss : List (List (String × List Event))),
      streamScenes env (fun _ => true) get fuel scenes k = some lss →
      List.Forall₂ (fun sc l =>
        isChainFrom get sc.first_sample_token (List.map Prod.fst l) ∧
        (List.map Prod.fst l).Nodup) scenes lss := by
  intro scenes
  induction scenes with
  | nil =>
    intro k lss h
    simp only [streamScenes, Option.some.injEq] at h
    subst h
    exact List.Forall₂.nil
  | cons sc rest ih =>
    intro k lss h
    simp only [streamScenes] at h
    cases hinner : innerLoop env (fun _ => true) get fuel k sc.first_sample_token with
    | none => simp [hinner] at h
    | some p =>
      obtain ⟨l, k2⟩ := p
      simp only [hinner] at h
      cases hrec : streamScenes env (fun _ => true) get fuel rest (k2 + 1) with
      | none => simp [hrec] at h
      | some ls =>
        simp only [hrec, Option.some.injEq, if_true] at h
        subst h
        exact List.Forall₂.cons
          ⟨innerLoop_true_chain env get fuel k sc.first_sample_token l k2 hinner,
           innerLoop_true_nodup env get fuel k sc.first_sample_token l k2 hinner⟩
          (ih (k2 + 1) ls hrec)

/-- C1: every terminating uncancelled run of `_stream_data` handles the
scenes of the scene table in order and, for each scene, processes exactly
the linked list of samples reached from `first_sample_token` by following
`next` — in chain order, each sample once, stopping at the empty
token. -/
theorem stream_walks_sample_chains (env : Env) (get : String → Option Sample)
    (fuel : Nat) (scenes : List Scene) (lss : List (List (String × List Event)))
    (h : streamScenes env (fun _ => true) get fuel scenes 0 = some lss) :
    List.Forall₂ (fun sc l =>
      isChainFrom get sc.first_sample_token (List.map Prod.fst l) ∧
      (List.map Prod.fst l).Nodup) scenes lss :=
  streamScenes_true_chain env get fuel scenes 0 lss h

/-- The two-sample chain of the walk witness: `s1` links to `s2`, which
ends the chain. -/
def sampleW1 : Sample := { timestamp := 1, next := "s2", data := [], anns := [] }

/-- Second sample of the walk witness. -/
def sampleW2 : Sample := { timestamp := 2, next := "", data := [], anns := [] }

/-- The sample table of the walk witness. -/
def getW : String → Option Sample := fun tok =>
  if tok = "s1" then some sampleW1 else if tok = "s2" then some sampleW2 else none

/-- The scene table of the walk witness. -/
def scenesW : List Scene := [⟨"s1"⟩]

/-- Witness for `stream_walks_sample_chains` on a two-sample scene. -/
theorem stream_walks_sample_chains_witness :
    List.Forall₂ (fun sc l =>
      isChainFrom getW sc.first_sample_token (List.map Prod.fst l) ∧
      (List.map Prod.fst l).Nodup) scenesW
      [[("s1", processSample envErr sampleW1), ("s2", processSample envErr sampleW2)]] :=
  stream_walks_sample_chains envErr getW 3 scenesW
    [[("s1", processSample envErr sampleW1), ("s2", processSample envErr sampleW2)]] rfl

/-! ## C8: cancellation via the flag, between frames -/

/-- Each processed frame advances the read count by at least one. -/
theorem innerLoop_count_le (env : Env) (flag : Nat → Bool)
    (get : String → Option Sample) :
    ∀ (fuel k : Nat) (tok : String) (l : List (String × List Event)) (k2 : Nat),
      innerLoop env flag get fuel k tok = some (l, k2) → k + l.length ≤ k2 := by
  intro fuel
  induction fuel with
  | zero =>
    intro k tok l k2 h
    by_cases htok : tok = "" <;> simp [innerLoop, htok] at h
    obtain ⟨rfl, rfl⟩ := h
    simp
  | succ fuel ih =>
    intro k tok l k2 h
    by_cases htok : tok = ""
    · simp [innerLoop, htok] at h
      obtain ⟨rfl, rfl⟩ := h
      simp
    · simp [innerLoop, htok] at h
      cases hf : flag k with
      | false =>
        simp [hf] at h
        obtain ⟨rfl, rfl⟩ := h
        simp
      | true =>
        simp [hf] at h
        cases hget : get tok with
        | none => simp [hget] at h
        | some s =>
          simp [hget] at h
          cases hrec : innerLoop env flag get fuel (k + 1) s.next with
          | none => simp [hrec] at h
          | some p =>
            obtain ⟨rest, kk⟩ := p
            simp [hrec] at h
            obtain ⟨h1, h2⟩ := h
            subst h1
            have := ih (k + 1) s.next rest kk hrec
            simp [List.length_cons]
            omega

/-- Once the reads reach an index from which the flag stays false, the
inner loop processes no more frames than there were reads left before
that index. -/
theorem innerLoop_flag_bound (env : Env) (flag : Nat → Bool)
    (get : String → Option Sample) (m : Nat)
    (hm : ∀ j, m ≤ j → flag j = false) :
    ∀ (fuel k : Nat) (tok : String) (l : List (String × List Event)) (k2 : Nat),
      innerLoop env flag get fuel k tok = some (l, k2) →
      k + l.length ≤ max k m := by
  intro fuel
  induction fuel with
  | zero =>
    intro k tok l k2 h
    by_cases htok : tok = "" <;> simp [innerLoop, htok] at h
    obtain ⟨rfl, rfl⟩ := h
    simp
  | succ fuel ih =>
    intro k tok l k2 h
    by_cases htok : tok = ""
    · simp [innerLoop, htok] at h
      obtain ⟨rfl, rfl⟩ := h
      simp
    · simp [innerLoop, htok] at h
      cases hf : flag k with
      | false =>
        simp [hf] at h
        obtain ⟨rfl, rfl⟩ := h
        simp
      | true =>
        have hkm : k < m := by
          by_contra hk
          exact absurd (hm k (by omega)) (by simp [hf])
        simp [hf] at h
        cases hget : get tok with
        | none => simp [hget] at h
        | some s =>
          simp [hget] at h
          cases hrec : innerLoop env flag get fuel (k + 1) s.next with
          | none => simp [hrec] at h
          | some p =>
            obtain ⟨rest, kk⟩ := p
            simp [hrec] at h
            obtain ⟨h1, h2⟩ := h
            subst h1
            have := ih (k + 1) s.next rest kk hrec
            simp [List.length_cons]
            omega

/-- Once the reads reach an index from which the flag stays false, the
whole scene loop processes no more frames than there were reads left
before that index. -/
theorem streamScenes_flag_bound (env : Env) (flag : Nat → Bool)
    (get : String → Option Sample) (fuel m : Nat)
    (hm : ∀ j, m ≤ j → flag j = false) :
    ∀ (scenes : List Scene) (k : Nat) (lss : List (List (String × List Event))),
      streamScenes env flag get fuel scenes k = some lss →
      k + (lss.map List.length).sum ≤ max k m := by
  intro scenes
  induction scenes with
  | nil =>
    intro k lss h
    simp only [streamScenes, Option.some.injEq] at h
    subst h
    simp
  | cons sc rest ih =>
    intro k lss h
    simp only [streamScenes] at h
    cases hinner : innerLoop env flag get fuel k sc.first_sample_token with
    | none => simp [hinner] at h
    | some p =>
      obtain ⟨l, k2⟩ := p
      simp only [hinner] at h
      have hbound := innerLoop_flag_bound env flag get m hm fuel k
        sc.first_sample_token l k2 hinner
      have hcount := innerLoop_count_le env flag get fuel k
        sc.first_sample_token l k2 hinner
      cases hf : flag k2 with
      | false =>
        simp [hf] at h
        subst h
        simp only [List.map_cons, List.map_nil, List.sum_cons, List.sum_nil]
        omega
      | true =>
        have hk2m : k2 < m := by
          by_contra hk
          exact absurd (hm k2 (by omega)) (by simp [hf])
        simp [hf] at h
        cases hrec : streamScenes env flag get fuel rest (k2 + 1) with
        | none => simp [hrec] at h
        | some ls =>
          simp [hrec] at h
          subst h
          have := ih (k2 + 1) ls hrec
          simp only [List.map_cons, List.sum_cons]
          omega

/-- C8: the cancellation flag acts only between frames.  Once the flag is
false, the total number of frames processed by a terminating run is
bounded by the number of reads that could still have been true; an inner
loop that reads a false flag stops at once, processing nothing; and after
an inner loop whose trailing read is false, the outer loop breaks,
running no further scene. -/
theorem cancellation_between_frames (env : Env) (flag : Nat → Bool)
    (get : String → Option Sample) (fuel m : Nat) :
    (∀ (scenes : List Scene) (lss : List (List (String × List Event))),
      (∀ j, m ≤ j → flag j = false) →
      streamScenes env flag get fuel scenes 0 = some lss →
      (lss.map List.length).sum ≤ m) ∧
    (∀ (k : Nat) (tok : String), tok ≠ "" → flag k = false →
      innerLoop env flag get (fuel + 1) k tok = some ([], k + 1)) ∧
    (∀ (k : Nat) (sc : Scene) (rest : List Scene)
        (l : List (String × List Event)) (k2 : Nat),
      innerLoop env flag get fuel k sc.first_sample_token = some (l, k2) →
      flag k2 = false →
      streamScenes env flag get fuel (sc :: rest) k = some [l]) := by
  refine ⟨?_, ?_, ?_⟩
  · intro scenes lss hm h
    have := streamScenes_flag_bound env flag get fuel m hm scenes 0 lss h
    omega
  · intro k tok htok hf
    simp [innerLoop, htok, hf]
  · intro k sc rest l k2 hinner hf
    simp [streamScenes, hinner, hf]

/-- The flag of the cancellation witness: true for the first read only. -/
def flagW : Nat → Bool := fun j => decide (j < 1)

/-- Witness for `cancellation_between_frames`: with the flag cleared after
one read, the two-sample scene of the walk witness processes a single
frame, the inner loop stops at `s2`, and the outer loop ends after the
first scene. -/
theorem cancellation_between_frames_witness :
    (List.map List.length [[("s1", processSample envErr sampleW1)]]).sum ≤ 1 ∧
    innerLoop envErr flagW getW 4 1 "s2" = some ([], 2) ∧
    streamScenes envErr flagW getW 3 (⟨"s1"⟩ :: []) 0 =
      some [[("s1", processSample envErr sampleW1)]] :=
  ⟨(cancellation_between_frames envErr flagW getW 3 1).1 scenesW
      [[("s1", processSample envErr sampleW1)]]
      (fun j hj => by simp only [flagW, decide_eq_false_iff_not]; omega) rfl,
   (cancellation_between_frames envErr flagW getW 3 1).2.1 1 "s2" (by decide) rfl,
   (cancellation_between_frames envErr flagW getW 3 1).2.2 0 ⟨"s1"⟩ []
      [("s1", processSample envErr sampleW1)] 2 rfl rfl⟩
